import Mathlib

/-!
Verification of the rust-ethernet-ip repository's Python layer.

The definitions below are a shallow embedding of:
  * `src/examples/PLC_Monitor_Dashboard/backend/main.py` — the FastAPI
    dashboard backend: its global state (`plc_client`, `tag_subscriptions`),
    the background poll loop `plc_monitor_task`, and the HTTP endpoints
    `connect_to_plc`, `disconnect_from_plc`, `get_plc_status`, `read_tag`,
    `write_tag`, `subscribe_to_tag`, `unsubscribe_from_tag`.
  * `src/pywrapper/python/rust_ethernet_ip/client.py` — the thin async
    wrapper over the Rust extension.
The Rust extension module itself (`PyEipClient`, `PyPlcValue`,
`read_tags_batch`, the value codec) is not part of the source tree; where a
property is decided by that missing code, the definition is modelled from the
spec and marked `Modelled from the spec:` in its doc comment.

Python `datetime.now()` timestamps are modelled as an abstract millisecond
counter (`Nat`) threaded through the functions; `asyncio.sleep(0.5)` advances
it by 500.  Python floats arriving in JSON request bodies are modelled as
rationals.
-/

namespace RustEthernetIp

/-- A value held by a PLC tag as surfaced to Python (`value.value` of a
`PyPlcValue`).  The dashboard only inspects it via `type(...).__name__`. -/
inductive PValue where
  | vbool : Bool → PValue
  | vint : Int → PValue
  | vreal : ℚ → PValue
  | vstr : String → PValue
deriving Repr, DecidableEq

/-- Python `type(v).__name__` for the values above
(`main.py` line 117 and 253). -/
def typeName : PValue → String
  | .vbool _ => "bool"
  | .vint _ => "int"
  | .vreal _ => "float"
  | .vstr _ => "str"

/-- The `TagValue` pydantic model of `main.py` (lines 49-54): the event
broadcast to WebSocket consumers.  `value` is `none` for the error event
built on a failed read (lines 128-134). -/
structure TagValue where
  tag_name : String
  value : Option PValue
  data_type : String
  timestamp : Nat
  quality : String
deriving Repr, DecidableEq

/-- The per-tag entry stored in the `tag_subscriptions` dict
(`main.py` lines 314-318). -/
structure SubParams where
  update_rate : Nat
  change_threshold : ℚ
  subscribed_at : Nat
deriving Repr, DecidableEq

/-- The `tag_subscriptions` dict of `main.py` (line 29): an insertion-ordered
mapping from tag name to its subscription parameters, modelled as an
association list with unique keys, as a Python dict guarantees. -/
abbrev Registry := List (String × SubParams)

/-- The backend's global connection state (`main.py` lines 27-29):
`plc_client` holds the address the `PyEipClient` was built with when
connected, `none` when disconnected. -/
structure ServerState where
  plc_client : Option String
  tag_subscriptions : Registry
deriving Repr, DecidableEq

/-- An HTTP error response (`fastapi.HTTPException`): status code and detail. -/
structure HErr where
  status_code : Nat
  detail : String
deriving Repr, DecidableEq

/-- The `PLCStatus` pydantic model returned by `get_plc_status`
(`main.py` lines 56-60 and 227-237). -/
structure PLCStatus where
  connected : Bool
  address : Option String
  active_subscriptions : Nat
deriving Repr, DecidableEq

/-- One iteration of the inner `for` body of `plc_monitor_task`
(`main.py` lines 108-135): read the tag; on success broadcast a good-quality
event carrying the value, on any exception broadcast a bad-quality event with
a null value and `data_type = "error"`.  The outcome of
`plc_client.read_tag` is abstracted as the `read` function. -/
def pollTag (read : String → Except String PValue) (t : Nat) (tag : String) :
    TagValue :=
  match read tag with
  | .ok v =>
      { tag_name := tag, value := some v, data_type := typeName v,
        timestamp := t, quality := "good" }
  | .error _ =>
      { tag_name := tag, value := none, data_type := "error",
        timestamp := t, quality := "bad" }

/-- One full poll cycle of `plc_monitor_task` (`main.py` lines 106-135): if a
client is connected, every entry of `tag_subscriptions` is read and an event
is broadcast for it, in registry order; without a client nothing is
dispatched.  (With an empty registry the `for` loop body never runs, which
coincides with mapping over the empty list.) -/
def pollCycle (client : Option String) (read : String → Except String PValue)
    (t : Nat) (regs : Registry) : List TagValue :=
  match client with
  | none => []
  | some _ => regs.map (fun p => pollTag read t p.1)

/-- The poll loop of `plc_monitor_task` over a finite schedule of cycles
(`main.py` lines 104-142): each element of `reads` is the PLC's read
behaviour during one cycle; after every cycle the task sleeps a fixed
500 ms (`await asyncio.sleep(0.5)`, line 138), whatever the registry's
per-tag update rates say.  Returns the concatenated dispatch stream. -/
def monitorRun (client : Option String)
    (reads : List (String → Except String PValue)) (t : Nat)
    (regs : Registry) : List TagValue :=
  match reads with
  | [] => []
  | r :: rs => pollCycle client r t regs ++ monitorRun client rs (t + 500) regs

/-- A read behaviour returning the same value for every tag; used to build
concrete poll schedules. -/
def constRead (v : PValue) : String → Except String PValue :=
  fun _ => Except.ok v

/-- The `/connect` endpoint (`main.py` lines 186-206): building the
`PyEipClient` either succeeds (modelled by `ok = true`), storing the address,
or raises, leaving the global state unchanged and returning HTTP 400. -/
def connect_to_plc (ok : Bool) (s : ServerState) (address : String) :
    ServerState × Except HErr String :=
  if ok then ({ s with plc_client := some address }, .ok "connected")
  else (s, .error ⟨400, "Failed to connect to PLC"⟩)

/-- The `/disconnect` endpoint (`main.py` lines 208-225): drops the client
(`plc_client = None`) and clears the subscription dict. -/
def disconnect_from_plc (s : ServerState) : ServerState × Except HErr String :=
  ({ plc_client := none, tag_subscriptions := [] }, .ok "disconnected")

/-- The `/status` endpoint (`main.py` lines 227-237). -/
def get_plc_status (s : ServerState) : PLCStatus :=
  { connected := s.plc_client.isSome,
    address := s.plc_client,
    active_subscriptions := s.tag_subscriptions.length }

/-- The `/tags/read` endpoint (`main.py` lines 239-259): with no client it
fails with HTTP 400 `"Not connected to PLC"`; otherwise it reads once and
returns a good-quality `TagValue`, or HTTP 500 on a read exception.  The
state is returned to record that the handler never mutates `plc_client`. -/
def read_tag_endpoint (read : String → Except String PValue) (t : Nat)
    (s : ServerState) (tag : String) : ServerState × Except HErr TagValue :=
  match s.plc_client with
  | none => (s, .error ⟨400, "Not connected to PLC"⟩)
  | some _ =>
      match read tag with
      | .ok v =>
          (s, .ok { tag_name := tag, value := some v, data_type := typeName v,
                    timestamp := t, quality := "good" })
      | .error e => (s, .error ⟨500, "Error reading tag: " ++ e⟩)

/-- The JSON `value` field of a `/tags/write` request body
(`main.py` line 41, `value: Any`): the value kinds a JSON body can carry
(floats as rationals). -/
inductive ReqValue where
  | rint : Int → ReqValue
  | rfloat : ℚ → ReqValue
  | rbool : Bool → ReqValue
  | rstr : String → ReqValue
  | rnull : ReqValue
deriving Repr, DecidableEq

/-- Python `int(x)` as applied to a JSON request value
(`main.py` line 272): truncating conversion for numbers, 0/1 for booleans,
parse for strings (non-numeric strings raise `ValueError`), `TypeError` for
null. -/
def pyInt : ReqValue → Except String Int
  | .rint n => .ok n
  | .rfloat q => .ok (Int.tdiv q.num q.den)
  | .rbool b => .ok (if b then 1 else 0)
  | .rstr sv =>
      match sv.toInt? with
      | some n => .ok n
      | none => .error "invalid literal for int()"
  | .rnull => .error "int() argument cannot be None"

/-- Python `float(x)` as applied to a JSON request value
(`main.py` line 274).  Numeric strings are modelled only for integer
literals; no claim depends on string-to-float parsing. -/
def pyFloat : ReqValue → Except String ℚ
  | .rint n => .ok (n : ℚ)
  | .rfloat q => .ok q
  | .rbool b => .ok (if b then 1 else 0)
  | .rstr sv =>
      match sv.toInt? with
      | some n => .ok (n : ℚ)
      | none => .error "could not convert string to float"
  | .rnull => .error "float() argument cannot be None"

/-- Python `str(x)` as applied to a JSON request value (`main.py` line 278);
total. -/
def pyStr : ReqValue → String
  | .rint n => toString n
  | .rfloat q => toString q
  | .rbool b => if b then "True" else "False"
  | .rstr sv => sv
  | .rnull => "None"

/-- Building the `PyPlcValue` from a `/tags/write` request body
(`main.py` lines 270-280): dispatch on the request's `data_type` string,
with Python coercions in each branch, and `ValueError` for any other
`data_type`.  The bare `PyPlcValue(request.value)` constructor used in the
`bool` branch lives in the Rust extension; it is modelled as wrapping the
request value directly (nulls rejected).  No claim depends on that branch's
result. -/
def makePlcValue (dt : String) (v : ReqValue) : Except String PValue :=
  if dt = "dint" then (pyInt v).map PValue.vint
  else if dt = "real" then (pyFloat v).map PValue.vreal
  else if dt = "bool" then
    match v with
    | .rbool b => .ok (.vbool b)
    | .rint n => .ok (.vint n)
    | .rfloat q => .ok (.vreal q)
    | .rstr sv => .ok (.vstr sv)
    | .rnull => .error "unsupported value"
  else if dt = "string" then .ok (.vstr (pyStr v))
  else .error ("Unsupported data type: " ++ dt)

/-- The `/tags/write` endpoint (`main.py` lines 261-292).  The middle
component of the result lists the writes actually issued to the PLC
(`plc_client.write_tag` calls); `writeOk` abstracts the Rust call's
success flag.  With no client: HTTP 400 and no write.  A `ValueError` from
`makePlcValue` is caught by the handler's `except` and re-raised as HTTP
500, likewise a falsy write result. -/
def write_tag_endpoint (writeOk : String → PValue → Bool) (s : ServerState)
    (tag : String) (dt : String) (v : ReqValue) :
    ServerState × List (String × PValue) × Except HErr String :=
  match s.plc_client with
  | none => (s, [], .error ⟨400, "Not connected to PLC"⟩)
  | some _ =>
      match makePlcValue dt v with
      | .error msg =>
          (s, [], .error ⟨500, "Error writing tag " ++ tag ++ ": " ++ msg⟩)
      | .ok pv =>
          if writeOk tag pv then
            (s, [(tag, pv)], .ok ("Tag " ++ tag ++ " written successfully"))
          else
            (s, [(tag, pv)],
             .error ⟨500, "Error writing tag " ++ tag ++ ": Failed to write tag"⟩)

/-- Python dict assignment `tag_subscriptions[tag] = {...}`
(`main.py` line 314): an existing key keeps its position and gets the new
value; a new key is appended at the end (insertion order). -/
def insertSub (regs : Registry) (tag : String) (p : SubParams) : Registry :=
  if (regs.lookup tag).isSome then
    regs.map (fun q => if q.1 = tag then (tag, p) else q)
  else regs ++ [(tag, p)]

/-- The `/tags/subscribe` endpoint (`main.py` lines 294-325): requires a
client (else HTTP 400); forwards to the Rust `subscribe_to_tag` (its success
abstracted as `rustOk` — on an exception the dict is not touched and HTTP
500 is returned), then stores the parameters in `tag_subscriptions` under
the tag name. -/
def subscribe_to_tag_endpoint (rustOk : Bool) (t : Nat) (s : ServerState)
    (tag : String) (update_rate : Nat) (change_threshold : ℚ) :
    ServerState × Except HErr String :=
  match s.plc_client with
  | none => (s, .error ⟨400, "Not connected to PLC"⟩)
  | some _ =>
      if rustOk then
        let p : SubParams := ⟨update_rate, change_threshold, t⟩
        ({ s with tag_subscriptions := insertSub s.tag_subscriptions tag p },
         .ok "subscribed")
      else (s, .error ⟨500, "Error subscribing to tag"⟩)

/-- The `/tags/subscribe/{tag_name}` DELETE endpoint (`main.py` lines
327-337): if the tag is a key of `tag_subscriptions` it is deleted and the
call succeeds; otherwise the handler raises HTTP 404
`"Tag not found in subscriptions"`. -/
def unsubscribe_from_tag_endpoint (s : ServerState) (tag : String) :
    ServerState × Except HErr String :=
  if (s.tag_subscriptions.lookup tag).isSome then
    ({ s with tag_subscriptions :=
         s.tag_subscriptions.filter (fun p => p.1 != tag) },
     .ok "unsubscribed")
  else (s, .error ⟨404, "Tag not found in subscriptions"⟩)

/-- The error taxonomy of the spec (§7) for decode failures. -/
inductive DecodeError where
  | truncated
  | typeMismatch
  | invalidValue
deriving Repr, DecidableEq

/-- The error taxonomy of the spec (§7) for single tag operations. -/
inductive OpError where
  | sessionLost
  | addressNotFound
  | transport (msg : String)
  | decode (e : DecodeError)
deriving Repr, DecidableEq

/-- Modelled from the spec: `read_tags_batch` is implemented in the Rust
extension, which is absent from the source tree — the wrapper
`EipClient.read_tags_batch` (`client.py` lines 35-37) only forwards to it.
Per §4.3, each input address is executed in order against the session;
`step` abstracts one read, threading the session state `σ` so that a
mid-batch disconnect may degrade the remaining items' outcomes, while each
item still gets its own (address, result) entry. -/
def read_batch {σ : Type _} (step : σ → String → σ × Except OpError PValue) :
    σ → List String → List (String × Except OpError PValue)
  | _, [] => []
  | st, tg :: ts =>
      match step st tg with
      | (st1, r) => (tg, r) :: read_batch step st1 ts

/-- Modelled from the spec: `write_tags_batch`, symmetric to `read_batch`
(§4.3); the wrapper `EipClient.write_tags_batch` (`client.py` lines 39-41)
only forwards to the Rust extension. -/
def write_batch {σ : Type _}
    (step : σ → String × PValue → σ × Except OpError Unit) :
    σ → List (String × PValue) → List (String × Except OpError Unit)
  | _, [] => []
  | st, pv :: ts =>
      match step st pv with
      | (st1, r) => (pv.1, r) :: write_batch step st1 ts

/-- A Tagged Value as carried into a write (spec §3): a closed set of
variants whose width is fixed at construction.  `tint w n` is
`SignedInt(width)` with `w` the width in bytes; `treal w bits` is
`Float(width)` with its payload kept as the raw bit pattern (IEEE
arithmetic itself has no bearing on the codec rules). -/
inductive TaggedValue where
  | tbool : Bool → TaggedValue
  | tint : Nat → Int → TaggedValue
  | treal : Nat → Nat → TaggedValue
  | ttext : String → TaggedValue
deriving Repr, DecidableEq

/-- A tag's native type on the controller (spec §3/§4.2). -/
inductive TagType where
  | tyBool
  | tySignedInt (w : Nat)
  | tyFloat (w : Nat)
  | tyText
deriving Repr, DecidableEq

/-- Little-endian byte image of a natural number in exactly `w` bytes. -/
def natToLEBytes : Nat → Nat → List Nat
  | 0, _ => []
  | w + 1, n => n % 256 :: natToLEBytes w (n / 256)

/-- Value of a little-endian byte list. -/
def leBytesToNat : List Nat → Nat
  | [] => 0
  | b :: bs => b + 256 * leBytesToNat bs

/-- Whether a signed integer value fits a signed two's-complement field of
`w` bytes (widths are positive byte counts: SINT/INT/DINT/LINT). -/
def fitsSigned (w : Nat) (n : Int) : Bool :=
  decide (0 < w) && decide (-(2 ^ (8 * w - 1)) ≤ n) && decide (n < 2 ^ (8 * w - 1))

/-- Modelled from the spec: the Value Codec's encoder for `SignedInt(w)`
(§4.2), absent from the source tree with the Rust extension.  A value out of
the width's two's-complement range fails with `TypeMismatch` — never
truncated — and an in-range value is written as its `w` little-endian
two's-complement bytes. -/
def encodeSignedInt (w : Nat) (n : Int) : Except DecodeError (List Nat) :=
  if fitsSigned w n then
    .ok (natToLEBytes w ((n % (2 ^ (8 * w) : Int)).toNat))
  else .error .typeMismatch

/-- Modelled from the spec: the Value Codec's decoder for `SignedInt(w)`
(§4.2).  A buffer with fewer than `w` bytes is `Truncated`, never
zero-filled; otherwise the first `w` bytes are read as little-endian
two's complement. -/
def decodeSignedInt (w : Nat) (bs : List Nat) : Except DecodeError Int :=
  if bs.length < w then .error .truncated
  else
    let u := leBytesToNat (bs.take w)
    .ok (if u < 2 ^ (8 * w - 1) then (u : Int) else (u : Int) - 2 ^ (8 * w))

/-- Modelled from the spec: the Value Codec's decoder for `Float(w)`
(§4.2), recovering the payload's raw bit pattern.  A buffer with fewer than
`w` bytes is `Truncated`, never zero-filled. -/
def decodeFloatBits (w : Nat) (bs : List Nat) : Except DecodeError Nat :=
  if bs.length < w then .error .truncated
  else .ok (leBytesToNat (bs.take w))

/-- Modelled from the spec: the write-path coercion rule of the Value Codec
(§4.2), absent from the source tree with the Rust extension.  A numeric
value whose declared width differs from the tag's native width — wider or
narrower — fails with `TypeMismatch`; no narrowing rule is defined for this
controller's data model.  Matching widths encode losslessly;
variant mismatches also fail with `TypeMismatch`. -/
def encodeForWrite (ty : TagType) (v : TaggedValue) :
    Except DecodeError (List Nat) :=
  match ty, v with
  | .tyBool, .tbool b => .ok [if b then 1 else 0]
  | .tySignedInt w, .tint vw n =>
      if vw = w then encodeSignedInt w n else .error .typeMismatch
  | .tyFloat w, .treal vw bits =>
      if vw = w && decide (bits < 2 ^ (8 * w)) then .ok (natToLEBytes w bits)
      else .error .typeMismatch
  | .tyText, .ttext sv => .ok (sv.length :: (sv.data.map (fun c => c.toNat % 256)))
  | _, _ => .error .typeMismatch

/-! ### Helper lemmas -/

theorem pollTag_tag_name (read : String → Except String PValue) (t : Nat)
    (tag : String) : (pollTag read t tag).tag_name = tag := by
  cases h : read tag <;> simp [pollTag, h]

theorem pollTag_timestamp (read : String → Except String PValue) (t : Nat)
    (tag : String) : (pollTag read t tag).timestamp = t := by
  cases h : read tag <;> simp [pollTag, h]

/-! ### Claims -/

/-- C2: for every input list of N tag addresses (resp. N address-value
pairs), `read_batch`/`read_tags_batch` and `write_batch`/`write_tags_batch`
return exactly N per-item results, index-aligned 1:1 with the input — the
i-th result is labelled with the i-th input address for every possible
per-item behaviour `step`, including ones that fail or degrade the session
state mid-batch, so one item's failure never removes or reorders the other
items' results. -/
theorem c2_batch_length_invariant :
    (∀ (σ : Type) (step : σ → String → σ × Except OpError PValue) (st : σ)
        (tags : List String),
        (read_batch step st tags).map Prod.fst = tags ∧
        (read_batch step st tags).length = tags.length) ∧
    (∀ (σ : Type) (step : σ → String × PValue → σ × Except OpError Unit)
        (st : σ) (pairs : List (String × PValue)),
        (write_batch step st pairs).map Prod.fst = pairs.map Prod.fst ∧
        (write_batch step st pairs).length = pairs.length) := by
  constructor
  · intro σ step st tags
    induction tags generalizing st with
    | nil => exact ⟨rfl, rfl⟩
    | cons tg ts ih =>
        rcases hs : step st tg with ⟨st1, r⟩
        have h := ih st1
        simp [read_batch, hs, h.1, h.2]
  · intro σ step st pairs
    induction pairs generalizing st with
    | nil => exact ⟨rfl, rfl⟩
    | cons pv ts ih =>
        rcases hs : step st pv with ⟨st1, r⟩
        have h := ih st1
        simp [write_batch, hs, h.1, h.2]

/-- C4: in every poll cycle, a subscribed tag whose read fails still gets an
event dispatched — null value, `data_type = "error"`, quality `"bad"`, the
cycle's timestamp — at its position in the cycle's dispatch sequence, and
the cycle still dispatches one event per registered subscription (the error
never terminates the loop). -/
theorem c4_failed_read_dispatches_bad_event :
    ∀ (addr tag : String) (p : SubParams)
      (read : String → Except String PValue) (t i : Nat) (regs : Registry)
      (msg : String),
      regs[i]? = some (tag, p) →
      read tag = .error msg →
      (pollCycle (some addr) read t regs)[i]? =
        some ⟨tag, none, "error", t, "bad"⟩ ∧
      (pollCycle (some addr) read t regs).length = regs.length := by
  intro addr tag p read t i regs msg h1 h2
  constructor
  · simp [pollCycle, List.getElem?_map, h1, pollTag, h2]
  · simp [pollCycle]

theorem c4_witness :
    ([(("Motor" : String), (⟨1000, 1, 0⟩ : SubParams))][0]? =
        some ("Motor", ⟨1000, 1, 0⟩)) ∧
    ((fun _ => Except.error "timeout" :
        String → Except String PValue) "Motor" = .error "timeout") ∧
    (pollCycle (some "192.168.0.1:44818") (fun _ => Except.error "timeout") 7
        [("Motor", ⟨1000, 1, 0⟩)])[0]? =
      some ⟨"Motor", none, "error", 7, "bad"⟩ ∧
    (pollCycle (some "192.168.0.1:44818") (fun _ => Except.error "timeout") 7
        [("Motor", ⟨1000, 1, 0⟩)]).length = [("Motor", (⟨1000, 1, 0⟩ : SubParams))].length := by
  refine ⟨rfl, rfl, ?_⟩
  exact c4_failed_read_dispatches_bad_event "192.168.0.1:44818" "Motor"
    ⟨1000, 1, 0⟩ (fun _ => Except.error "timeout") 7 0
    [("Motor", ⟨1000, 1, 0⟩)] "timeout" rfl rfl

/-- C5: after `/disconnect` drops the session, every subsequent read or
write fails with the 400 "Not connected to PLC" error, and the handlers
leave the state disconnected — the client is never silently re-established
inside a read or write. -/
theorem c5_closed_session_rejects_ops :
    ∀ (s : ServerState) (read : String → Except String PValue)
      (writeOk : String → PValue → Bool) (t : Nat) (tag dt : String)
      (v : ReqValue),
      read_tag_endpoint read t (disconnect_from_plc s).1 tag =
        ((disconnect_from_plc s).1, .error ⟨400, "Not connected to PLC"⟩) ∧
      write_tag_endpoint writeOk (disconnect_from_plc s).1 tag dt v =
        ((disconnect_from_plc s).1, [],
         .error ⟨400, "Not connected to PLC"⟩) ∧
      (disconnect_from_plc s).1.plc_client = none := by
  intro s read writeOk t tag dt v
  exact ⟨rfl, rfl, rfl⟩

theorem lookup_filter_bne (tag : String) (l : Registry) :
    (l.filter (fun p => p.1 != tag)).lookup tag = none := by
  induction l with
  | nil => rfl
  | cons a l ih =>
      by_cases h : a.1 = tag
      · simp [List.filter, h, ih]
      · have hb : (a.1 != tag) = true := by simp [bne, h]
        have hk : (tag == a.1) = false := by
          simp [beq_eq_false_iff_ne]
          exact fun hh => h hh.symm
        simp [List.filter, hb, List.lookup, hk, ih]

/-- C6 counterexample: unsubscribing a tag that is not in the subscription
registry is not a no-op success — the handler answers HTTP 404
"Tag not found in subscriptions" (while indeed leaving the registry
unchanged). -/
theorem c6_counterexample_unknown_unsubscribe_is_error :
    (unsubscribe_from_tag_endpoint
        ⟨some "192.168.0.1:44818", []⟩ "TankLevel").2 =
      Except.error ⟨404, "Tag not found in subscriptions"⟩ ∧
    (unsubscribe_from_tag_endpoint
        ⟨some "192.168.0.1:44818", []⟩ "TankLevel").1 =
      ⟨some "192.168.0.1:44818", []⟩ := by
  exact ⟨rfl, rfl⟩

/-- C6 (amended): for every tag name not present in the subscription
registry, unsubscribe leaves the state unchanged but fails with the HTTP
404 error "Tag not found in subscriptions" instead of succeeding; after any
unsubscribe call — known or unknown tag — the registry holds no entry for
the tag. -/
theorem c6_amended_unknown_unsubscribe_404 :
    ∀ (s : ServerState) (tag : String),
      (s.tag_subscriptions.lookup tag = none →
        unsubscribe_from_tag_endpoint s tag =
          (s, .error ⟨404, "Tag not found in subscriptions"⟩)) ∧
      (unsubscribe_from_tag_endpoint s tag).1.tag_subscriptions.lookup tag =
        none := by
  intro s tag
  constructor
  · intro h
    simp [unsubscribe_from_tag_endpoint, h]
  · by_cases hp : (s.tag_subscriptions.lookup tag).isSome
    · simp [unsubscribe_from_tag_endpoint, hp, lookup_filter_bne]
    · rw [Option.not_isSome_iff_eq_none] at hp
      simp [unsubscribe_from_tag_endpoint, hp]

theorem c6_witness :
    (([(("Pump" : String), (⟨500, 1, 0⟩ : SubParams))] : Registry).lookup
        "Valve" = none) ∧
    unsubscribe_from_tag_endpoint
        ⟨some "10.0.0.5:44818", [("Pump", ⟨500, 1, 0⟩)]⟩ "Valve" =
      (⟨some "10.0.0.5:44818", [("Pump", ⟨500, 1, 0⟩)]⟩,
       .error ⟨404, "Tag not found in subscriptions"⟩) := by
  refine ⟨rfl, ?_⟩
  exact (c6_amended_unknown_unsubscribe_404
    ⟨some "10.0.0.5:44818", [("Pump", ⟨500, 1, 0⟩)]⟩ "Valve").1 rfl

theorem keys_of_replace (tag : String) (p : SubParams) (l : Registry) :
    (l.map (fun q => if q.1 = tag then (tag, p) else q)).map Prod.fst =
      l.map Prod.fst := by
  rw [List.map_map]
  apply List.map_congr_left
  intro q _
  by_cases h : q.1 = tag <;> simp [h]

theorem lookup_of_replace (tag : String) (p : SubParams) (l : Registry)
    (h : (l.lookup tag).isSome = true) :
    (l.map (fun q => if q.1 = tag then (tag, p) else q)).lookup tag =
      some p := by
  induction l with
  | nil => simp [List.lookup] at h
  | cons a l ih =>
      simp only [List.map_cons]
      by_cases ha : a.1 = tag
      · rw [if_pos ha]
        simp [List.lookup]
      · rw [if_neg ha]
        have hk : (tag == a.1) = false := by
          simp [beq_eq_false_iff_ne]
          exact fun hh => ha hh.symm
        have h2 : (l.lookup tag).isSome = true := by
          simpa [List.lookup, hk] using h
        simp [List.lookup, hk, ih h2]

/-- C9: subscribing again to a tag already in the registry replaces the
entry's parameters in place — the key sequence (hence the registry order,
the absence of duplicates, and the active-subscription count reported by
`/status`) is unchanged, and the stored parameters are the new ones. -/
theorem c9_resubscribe_replaces_entry :
    ∀ (addr : String) (s : ServerState) (tag : String) (ur t : Nat) (ct : ℚ),
      s.plc_client = some addr →
      (s.tag_subscriptions.lookup tag).isSome = true →
      ((subscribe_to_tag_endpoint true t s tag ur ct).1.tag_subscriptions.map
          Prod.fst = s.tag_subscriptions.map Prod.fst) ∧
      ((subscribe_to_tag_endpoint true t s tag ur ct).1.tag_subscriptions.lookup
          tag = some ⟨ur, ct, t⟩) ∧
      ((get_plc_status
          (subscribe_to_tag_endpoint true t s tag ur ct).1).active_subscriptions
        = (get_plc_status s).active_subscriptions) ∧
      ((s.tag_subscriptions.map Prod.fst).Nodup →
        ((subscribe_to_tag_endpoint true t s tag ur
            ct).1.tag_subscriptions.map Prod.fst).Nodup) := by
  intro addr s tag ur t ct hc hp
  have hkeys :
      (subscribe_to_tag_endpoint true t s tag ur ct).1.tag_subscriptions.map
          Prod.fst = s.tag_subscriptions.map Prod.fst := by
    simp only [subscribe_to_tag_endpoint, hc, if_true, insertSub, hp]
    exact keys_of_replace tag _ s.tag_subscriptions
  refine ⟨hkeys, ?_, ?_, ?_⟩
  · simp only [subscribe_to_tag_endpoint, hc, if_true, insertSub, hp]
    exact lookup_of_replace tag _ s.tag_subscriptions hp
  · have := congrArg List.length hkeys
    simpa [get_plc_status] using this
  · intro hn
    rw [hkeys]
    exact hn

theorem c9_witness :
    ((⟨some "192.168.0.10:44818", [("Speed", ⟨1000, 1, 0⟩)]⟩ :
        ServerState).plc_client = some "192.168.0.10:44818") ∧
    ((([("Speed", (⟨1000, 1, 0⟩ : SubParams))] : Registry).lookup
        "Speed").isSome = true) ∧
    ((subscribe_to_tag_endpoint true 7
        ⟨some "192.168.0.10:44818", [("Speed", ⟨1000, 1, 0⟩)]⟩ "Speed" 250
        2).1.tag_subscriptions.map Prod.fst = ["Speed"]) ∧
    ((subscribe_to_tag_endpoint true 7
        ⟨some "192.168.0.10:44818", [("Speed", ⟨1000, 1, 0⟩)]⟩ "Speed" 250
        2).1.tag_subscriptions.lookup "Speed" = some ⟨250, 2, 7⟩) ∧
    ((get_plc_status (subscribe_to_tag_endpoint true 7
        ⟨some "192.168.0.10:44818", [("Speed", ⟨1000, 1, 0⟩)]⟩ "Speed" 250
        2).1).active_subscriptions = 1) ∧
    (((subscribe_to_tag_endpoint true 7
        ⟨some "192.168.0.10:44818", [("Speed", ⟨1000, 1, 0⟩)]⟩ "Speed" 250
        2).1.tag_subscriptions.map Prod.fst).Nodup) := by
  have h := c9_resubscribe_replaces_entry "192.168.0.10:44818"
    ⟨some "192.168.0.10:44818", [("Speed", ⟨1000, 1, 0⟩)]⟩ "Speed" 250 7 2
    rfl rfl
  refine ⟨rfl, rfl, by simpa using h.1, h.2.1, by simpa using h.2.2.1,
    h.2.2.2 (by decide)⟩

/-- C10: a `/tags/write` request whose `data_type` is not one of `dint`,
`real`, `bool`, `string` fails before any value reaches the controller: no
PLC write is issued, the result is an error, and the connection state is
unchanged. -/
theorem c10_unsupported_type_rejected :
    ∀ (writeOk : String → PValue → Bool) (s : ServerState) (tag dt : String)
      (v : ReqValue),
      dt ∉ (["dint", "real", "bool", "string"] : List String) →
      (write_tag_endpoint writeOk s tag dt v).1 = s ∧
      (write_tag_endpoint writeOk s tag dt v).2.1 = [] ∧
      ∃ e : HErr, (write_tag_endpoint writeOk s tag dt v).2.2 =
        .error e := by
  intro writeOk s tag dt v h
  simp only [List.mem_cons, List.mem_singleton, not_or, List.not_mem_nil] at h
  obtain ⟨h1, h2, h3, h4, -⟩ := h
  cases hs : s.plc_client with
  | none =>
      refine ⟨?_, ?_, ⟨400, "Not connected to PLC"⟩, ?_⟩ <;>
        simp [write_tag_endpoint, hs]
  | some a =>
      have hm : makePlcValue dt v =
          .error ("Unsupported data type: " ++ dt) := by
        simp [makePlcValue, h1, h2, h3, h4]
      refine ⟨?_, ?_,
        ⟨500, "Error writing tag " ++ tag ++ ": " ++
          ("Unsupported data type: " ++ dt)⟩, ?_⟩ <;>
        simp [write_tag_endpoint, hs, hm]

theorem c10_witness :
    (("sint" : String) ∉ (["dint", "real", "bool", "string"] : List String)) ∧
    ((write_tag_endpoint (fun _ _ => true)
        ⟨some "192.168.0.1:44818", []⟩ "Counter" "sint" (.rint 3)).1 =
      ⟨some "192.168.0.1:44818", []⟩) ∧
    ((write_tag_endpoint (fun _ _ => true)
        ⟨some "192.168.0.1:44818", []⟩ "Counter" "sint" (.rint 3)).2.1 =
      []) ∧
    (∃ e : HErr, (write_tag_endpoint (fun _ _ => true)
        ⟨some "192.168.0.1:44818", []⟩ "Counter" "sint" (.rint 3)).2.2 =
      .error e) := by
  have h := c10_unsupported_type_rejected (fun _ _ => true)
    ⟨some "192.168.0.1:44818", []⟩ "Counter" "sint" (.rint 3) (by decide)
  exact ⟨by decide, h.1, h.2.1, h.2.2⟩

/-- C1 counterexample: a numeric subscription with change threshold 10 whose
tag reads 5 on two consecutive polls (difference 0, strictly below the
threshold) still gets a second good-quality update dispatched by the monitor
loop — `plc_monitor_task` applies no change detection. -/
theorem c1_counterexample_small_change_still_dispatched :
    monitorRun (some "192.168.0.1:44818")
        [constRead (.vint 5), constRead (.vint 5)] 0
        [("Counter", ⟨1000, 10, 0⟩)] =
      [⟨"Counter", some (.vint 5), "int", 0, "good"⟩,
       ⟨"Counter", some (.vint 5), "int", 500, "good"⟩] ∧
    |(5 : ℚ) - 5| < 10 := by
  constructor
  · rfl
  · norm_num

/-- C1 (amended): the monitor loop dispatches an update event for every
subscribed tag on every poll cycle, whatever the configured change threshold
and however small the change since the previous dispatch; in particular the
first poll always dispatches and a change of at least the threshold always
dispatches. -/
theorem c1_amended_every_cycle_dispatches :
    ∀ (addr tag : String) (p : SubParams)
      (reads : List (String → Except String PValue)) (t : Nat),
      (monitorRun (some addr) reads t [(tag, p)]).length = reads.length ∧
      ∀ e ∈ monitorRun (some addr) reads t [(tag, p)], e.tag_name = tag := by
  intro addr tag p reads t
  induction reads generalizing t with
  | nil =>
      refine ⟨rfl, ?_⟩
      intro e he
      simp [monitorRun] at he
  | cons r rs ih =>
      have h := ih (t + 500)
      constructor
      · simp [monitorRun, pollCycle, h.1]
      · intro e he
        simp only [monitorRun, pollCycle, List.map_cons, List.map_nil,
          List.cons_append, List.nil_append, List.mem_cons] at he
        rcases he with he | he
        · rw [he]
          exact pollTag_tag_name r t tag
        · exact h.2 e he

theorem c1_witness :
    (monitorRun (some "192.168.0.1:44818")
        [constRead (.vint 1), constRead (.vint 1)] 0
        [("Counter", ⟨1000, 10, 0⟩)]).length = 2 := by
  exact (c1_amended_every_cycle_dispatches "192.168.0.1:44818" "Counter"
    ⟨1000, 10, 0⟩ [constRead (.vint 1), constRead (.vint 1)] 0).1

/-- C7 counterexample: a boolean subscription polled three times with values
`false, false, true` gets three dispatched events, not the two the claim
expects — the repeated equal value is not suppressed. -/
theorem c7_counterexample_three_events_not_two :
    (monitorRun (some "192.168.0.1:44818")
        [constRead (.vbool false), constRead (.vbool false),
         constRead (.vbool true)] 0 [("MotorOn", ⟨100, 1, 0⟩)]).map
        TagValue.value =
      [some (.vbool false), some (.vbool false), some (.vbool true)] ∧
    (monitorRun (some "192.168.0.1:44818")
        [constRead (.vbool false), constRead (.vbool false),
         constRead (.vbool true)] 0 [("MotorOn", ⟨100, 1, 0⟩)]).length = 3 ∧
    (3 : Nat) ≠ 2 := by
  refine ⟨rfl, rfl, by decide⟩

/-- C7 (amended): for a boolean-tag subscription the monitor loop dispatches
exactly one good-quality update per poll carrying the polled value — for
polled values `false, false, true` that is three events with values
`false, false, true` in order; equal consecutive values are not
suppressed. -/
theorem c7_amended_one_event_per_bool_poll :
    ∀ (addr tag : String) (p : SubParams) (t : Nat) (bs : List Bool),
      (monitorRun (some addr) (bs.map (fun b => constRead (.vbool b))) t
          [(tag, p)]).map TagValue.value =
        bs.map (fun b => some (PValue.vbool b)) := by
  intro addr tag p t bs
  induction bs generalizing t with
  | nil => rfl
  | cons b bs ih =>
      simp [monitorRun, pollCycle, pollTag, constRead, ih]

/-- C8 counterexample: a subscription configured with a 2000 ms update rate
is polled again 500 ms after its first poll — the loop runs on the fixed
500 ms global tick of `asyncio.sleep(0.5)` and never computes the
subscription's own due time. -/
theorem c8_counterexample_ignores_update_rate :
    (monitorRun (some "192.168.0.1:44818")
        [constRead (.vint 1), constRead (.vint 1), constRead (.vint 1)] 0
        [("SlowTag", ⟨2000, 0, 0⟩)]).map TagValue.timestamp =
      [0, 500, 1000] ∧
    (500 : Nat) < 2000 := by
  refine ⟨rfl, by decide⟩

/-- C8 (amended): the monitor loop polls every active subscription on every
iteration of a single fixed 500 ms global tick: each cycle reads exactly the
registered tags in registry order, the run is unchanged under arbitrary
rewriting of every subscription's parameters (update rates and thresholds do
not influence the schedule), and the cycle timestamps advance by exactly
500 ms per cycle. -/
theorem c8_amended_fixed_global_tick :
    (∀ (addr : String) (read : String → Except String PValue) (t : Nat)
        (regs : Registry),
        (pollCycle (some addr) read t regs).map TagValue.tag_name =
          regs.map Prod.fst) ∧
    (∀ (addr : String) (reads : List (String → Except String PValue))
        (t : Nat) (regs : Registry) (f : String × SubParams → SubParams),
        monitorRun (some addr) reads t (regs.map (fun q => (q.1, f q))) =
          monitorRun (some addr) reads t regs) ∧
    (∀ (addr tag : String) (p : SubParams)
        (reads : List (String → Except String PValue)) (t : Nat),
        (monitorRun (some addr) reads t [(tag, p)]).map TagValue.timestamp =
          (List.range reads.length).map (fun k => t + 500 * k)) := by
  refine ⟨?_, ?_, ?_⟩
  · intro addr read t regs
    simp only [pollCycle, List.map_map]
    apply List.map_congr_left
    intro q _
    exact pollTag_tag_name read t q.1
  · intro addr reads t regs f
    induction reads generalizing t with
    | nil => rfl
    | cons r rs ih =>
        simp only [monitorRun, ih]
        congr 1
        simp only [pollCycle, List.map_map]
        rfl
  · intro addr tag p reads t
    induction reads generalizing t with
    | nil => rfl
    | cons r rs ih =>
        simp only [monitorRun, pollCycle, List.map_cons, List.map_nil,
          List.cons_append, List.nil_append, List.length_cons,
          List.range_succ_eq_map, List.map_map, pollTag_timestamp, ih]
        refine List.cons_eq_cons.mpr ⟨by omega, ?_⟩
        apply List.map_congr_left
        intro k _
        simp only [Function.comp_apply]
        omega

theorem natToLEBytes_length (w n : Nat) : (natToLEBytes w n).length = w := by
  induction w generalizing n with
  | zero => rfl
  | succ w ih => simp [natToLEBytes, ih]

theorem leBytesToNat_natToLEBytes (w n : Nat) (h : n < 2 ^ (8 * w)) :
    leBytesToNat (natToLEBytes w n) = n := by
  induction w generalizing n with
  | zero =>
      simp [natToLEBytes, leBytesToNat]
      omega
  | succ w ih =>
      have hpow : (2 : Nat) ^ (8 * (w + 1)) = 2 ^ (8 * w) * 256 := by
        have h8 : 8 * (w + 1) = 8 * w + 8 := by ring
        rw [h8, pow_add]
        norm_num
      have h2 : n / 256 < 2 ^ (8 * w) := by
        rw [hpow] at h
        omega
      simp [natToLEBytes, leBytesToNat, ih _ h2]
      omega

theorem signed_mod_repr (w : Nat) (n : Int) (hw : 0 < w)
    (hlo : -(2 ^ (8 * w - 1) : Int) ≤ n) (hhi : n < (2 ^ (8 * w - 1) : Int)) :
    (0 ≤ n % (2 ^ (8 * w) : Int)) ∧
    (n % (2 ^ (8 * w) : Int) < (2 ^ (8 * w) : Int)) ∧
    ((n % (2 ^ (8 * w) : Int) < (2 ^ (8 * w - 1) : Int) →
        n % (2 ^ (8 * w) : Int) = n) ∧
     (¬ n % (2 ^ (8 * w) : Int) < (2 ^ (8 * w - 1) : Int) →
        n % (2 ^ (8 * w) : Int) - 2 ^ (8 * w) = n)) := by
  have hM : (2 ^ (8 * w) : Int) = 2 * 2 ^ (8 * w - 1) := by
    obtain ⟨k, hk⟩ : ∃ k, 8 * w = k + 1 := ⟨8 * w - 1, by omega⟩
    rw [hk]
    simp [pow_succ]
    ring
  have hH : (0 : Int) < 2 ^ (8 * w - 1) := by positivity
  have hcase : n % (2 ^ (8 * w) : Int) = n ∨
      n % (2 ^ (8 * w) : Int) = n + 2 ^ (8 * w) := by
    by_cases hn : 0 ≤ n
    · left
      exact Int.emod_eq_of_lt hn (by omega)
    · right
      have h1 := Int.add_mul_emod_self_left n (2 ^ (8 * w)) 1
      rw [mul_one] at h1
      have h2 : (n + 2 ^ (8 * w)) % (2 ^ (8 * w) : Int) =
          n + 2 ^ (8 * w) := Int.emod_eq_of_lt (by omega) (by omega)
      omega
  refine ⟨?_, ?_, ?_, ?_⟩ <;> rcases hcase with hc | hc <;> omega

theorem decodeSignedInt_encodeSignedInt (w : Nat) (n : Int) (bs : List Nat)
    (h : encodeSignedInt w n = .ok bs) : decodeSignedInt w bs = .ok n := by
  unfold encodeSignedInt at h
  split at h
  case isFalse => exact absurd h (by simp)
  case isTrue hf =>
      obtain ⟨⟨hw, hlo⟩, hhi⟩ :
          (0 < w ∧ -(2 ^ (8 * w - 1) : Int) ≤ n) ∧
            n < (2 ^ (8 * w - 1) : Int) := by
        simpa [fitsSigned, Bool.and_eq_true, decide_eq_true_eq] using hf
      obtain ⟨hm0, hmlt, hlow, hhigh⟩ := signed_mod_repr w n hw hlo hhi
      have hbs : bs = natToLEBytes w ((n % (2 ^ (8 * w) : Int)).toNat) := by
        cases h
        rfl
      set u : Nat := (n % (2 ^ (8 * w) : Int)).toNat with hu
      have hcastu : (u : Int) = n % (2 ^ (8 * w) : Int) :=
        Int.toNat_of_nonneg hm0
      have hult : u < 2 ^ (8 * w) := by
        have : ((2 : Int) ^ (8 * w)) = ((2 ^ (8 * w) : Nat) : Int) := by
          push_cast
          rfl
        omega
      have hlen : bs.length = w := by rw [hbs]; exact natToLEBytes_length _ _
      have htake : bs.take w = bs := List.take_of_length_le (le_of_eq hlen)
      have hval : leBytesToNat (bs.take w) = u := by
        rw [htake, hbs]
        exact leBytesToNat_natToLEBytes w u hult
      unfold decodeSignedInt
      rw [if_neg (by omega)]
      simp only [hval]
      have hcastH : ((2 : Int) ^ (8 * w - 1)) =
          ((2 ^ (8 * w - 1) : Nat) : Int) := by
        push_cast
        rfl
      by_cases hsmall : u < 2 ^ (8 * w - 1)
      · rw [if_pos hsmall]
        have : (u : Int) = n := by
          rw [hcastu]
          exact hlow (by omega)
        rw [this]
      · rw [if_neg hsmall]
        have : (u : Int) - 2 ^ (8 * w) = n := by
          rw [hcastu]
          exact hhigh (by omega)
        rw [this]

/-- C3: writing any numeric value — `SignedInt(width)` or `Float(width)` —
that does not fit the target tag's native width fails with `TypeMismatch`:
a declared width different from the tag's (wider or narrower), a signed
value out of the width's two's-complement range, or a float payload not
representable in the width, are all rejected; and whenever a numeric write
is encoded at all, decoding the produced bytes yields exactly the original
value (signed value, resp. float bit pattern), so the codec never silently
truncates or sign-extends. -/
theorem c3_width_mismatch_write_fails :
    ∀ (w vw : Nat) (n : Int) (bits : Nat),
      ((vw ≠ w ∨ fitsSigned w n = false) →
        encodeForWrite (.tySignedInt w) (.tint vw n) =
          .error .typeMismatch) ∧
      (∀ bs, encodeForWrite (.tySignedInt w) (.tint vw n) = .ok bs →
        decodeSignedInt w bs = .ok n) ∧
      ((vw ≠ w ∨ ¬ bits < 2 ^ (8 * w)) →
        encodeForWrite (.tyFloat w) (.treal vw bits) =
          .error .typeMismatch) ∧
      (∀ bs, encodeForWrite (.tyFloat w) (.treal vw bits) = .ok bs →
        decodeFloatBits w bs = .ok bits) := by
  intro w vw n bits
  refine ⟨?_, ?_, ?_, ?_⟩
  · rintro (h | h)
    · simp [encodeForWrite, h]
    · by_cases hv : vw = w
      · simp [encodeForWrite, hv, encodeSignedInt, h]
      · simp [encodeForWrite, hv]
  · intro bs hok
    by_cases hv : vw = w
    · rw [encodeForWrite, if_pos hv] at hok
      exact decodeSignedInt_encodeSignedInt w n bs hok
    · rw [encodeForWrite, if_neg hv] at hok
      exact absurd hok (by simp)
  · rintro (h | h) <;> simp [encodeForWrite, h]
  · intro bs hok
    rw [encodeForWrite] at hok
    split at hok
    case isFalse => exact absurd hok (by simp)
    case isTrue hcond =>
        have hb : bits < 2 ^ (8 * w) := by
          have := hcond
          simp only [Bool.and_eq_true, decide_eq_true_eq] at this
          exact this.2
        have hbs : bs = natToLEBytes w bits := by
          cases hok
          rfl
        have hlen : bs.length = w := by
          rw [hbs]
          exact natToLEBytes_length _ _
        unfold decodeFloatBits
        rw [if_neg (by omega), hbs, List.take_of_length_le (le_of_eq (by rw [← hbs]; exact hlen))]
        rw [leBytesToNat_natToLEBytes w bits hb]

theorem c3_witness :
    ((2 : Nat) ≠ 4 ∨ fitsSigned 4 (70000 : Int) = false) ∧
    encodeForWrite (.tySignedInt 4) (.tint 2 70000) = .error .typeMismatch ∧
    fitsSigned 2 (70000 : Int) = false ∧
    encodeForWrite (.tySignedInt 2) (.tint 2 70000) = .error .typeMismatch ∧
    encodeForWrite (.tySignedInt 2) (.tint 2 (-300)) = .ok [212, 254] ∧
    decodeSignedInt 2 [212, 254] = .ok (-300) ∧
    ((8 : Nat) ≠ 4 ∨ ¬ (0 : Nat) < 2 ^ (8 * 4)) ∧
    encodeForWrite (.tyFloat 4) (.treal 8 0) = .error .typeMismatch ∧
    encodeForWrite (.tyFloat 4) (.treal 4 1078530011) =
      .ok [219, 15, 73, 64] ∧
    decodeFloatBits 4 [219, 15, 73, 64] = .ok 1078530011 := by
  refine ⟨Or.inl (by decide), ?_, by decide, ?_, by rfl, ?_,
    Or.inl (by decide), ?_, by rfl, ?_⟩
  · exact (c3_width_mismatch_write_fails 4 2 70000 0).1 (Or.inl (by decide))
  · exact (c3_width_mismatch_write_fails 2 2 70000 0).1 (Or.inr (by decide))
  · exact (c3_width_mismatch_write_fails 2 2 (-300) 0).2.1 [212, 254] (by rfl)
  · exact (c3_width_mismatch_write_fails 4 8 0 0).2.2.1 (Or.inl (by decide))
  · exact (c3_width_mismatch_write_fails 4 4 0 1078530011).2.2.2
      [219, 15, 73, 64] (by rfl)

end RustEthernetIp
